import Mathlib

/-!
Verification of `monitor_cloud.py` (Monitor de Empleo Santa Fe).

We shallowly embed the program's pure core: the fingerprint
(`calcular_hash`, an MD5 of the lowercased-and-stripped concatenation of
title and employer), link resolution (`construir_enlace`), the diff of
current listings against the persisted prior state
(`detectar_nuevas_ofertas`), the Telegram digest message, and the run
controller (`ejecutar`) including Python's dynamic-typing failure modes
when the persisted state file holds JSON of an unexpected shape.
-/

namespace Monitor

/-! ## Python string primitives

`str.lower` and `str.strip` as used on the Spanish-language inputs of this
program: `pyToLower` maps ASCII `A-Z` and the Latin-1 uppercase block to
lowercase (all other code points are fixed, matching CPython on this
range); `pyIsSpace` is the code-point set CPython's `str.strip()` removes.
-/

def pyWhitespaceCodes : List Nat :=
  [0x9, 0xA, 0xB, 0xC, 0xD, 0x1C, 0x1D, 0x1E, 0x1F, 0x20,
   0x85, 0xA0, 0x1680,
   0x2000, 0x2001, 0x2002, 0x2003, 0x2004, 0x2005, 0x2006, 0x2007,
   0x2008, 0x2009, 0x200A, 0x2028, 0x2029, 0x202F, 0x205F, 0x3000]

def pyIsSpace (c : Char) : Bool :=
  pyWhitespaceCodes.contains c.toNat

def pyToLower (c : Char) : Char :=
  if 0x41 ≤ c.toNat ∧ c.toNat ≤ 0x5A then Char.ofNat (c.toNat + 0x20)
  else if 0xC0 ≤ c.toNat ∧ c.toNat ≤ 0xDE ∧ c.toNat ≠ 0xD7 then
    Char.ofNat (c.toNat + 0x20)
  else c

def pyLowerStr (s : String) : String :=
  ⟨s.data.map pyToLower⟩

def stripList (l : List Char) : List Char :=
  ((l.dropWhile pyIsSpace).reverse.dropWhile pyIsSpace).reverse

def pyStripStr (s : String) : String :=
  ⟨stripList s.data⟩

/-! ## UTF-8 encoding (Python `str.encode()`) -/

def utf8Char (c : Char) : List Nat :=
  let n := c.toNat
  if n < 0x80 then [n]
  else if n < 0x800 then [0xC0 + n / 64, 0x80 + n % 64]
  else if n < 0x10000 then
    [0xE0 + n / 4096, 0x80 + (n / 64) % 64, 0x80 + n % 64]
  else
    [0xF0 + n / 262144, 0x80 + (n / 4096) % 64, 0x80 + (n / 64) % 64,
     0x80 + n % 64]

def utf8Bytes (s : String) : List Nat :=
  (s.data.map utf8Char).flatten

/-! ## MD5 (RFC 1321), over byte lists, words as `Nat` mod 2^32 -/

def md5K : List Nat :=
  [0xd76aa478, 0xe8c7b756, 0x242070db, 0xc1bdceee,
   0xf57c0faf, 0x4787c62a, 0xa8304613, 0xfd469501,
   0x698098d8, 0x8b44f7af, 0xffff5bb1, 0x895cd7be,
   0x6b901122, 0xfd987193, 0xa679438e, 0x49b40821,
   0xf61e2562, 0xc040b340, 0x265e5a51, 0xe9b6c7aa,
   0xd62f105d, 0x02441453, 0xd8a1e681, 0xe7d3fbc8,
   0x21e1cde6, 0xc33707d6, 0xf4d50d87, 0x455a14ed,
   0xa9e3e905, 0xfcefa3f8, 0x676f02d9, 0x8d2a4c8a,
   0xfffa3942, 0x8771f681, 0x6d9d6122, 0xfde5380c,
   0xa4beea44, 0x4bdecfa9, 0xf6bb4b60, 0xbebfbc70,
   0x289b7ec6, 0xeaa127fa, 0xd4ef3085, 0x04881d05,
   0xd9d4d039, 0xe6db99e5, 0x1fa27cf8, 0xc4ac5665,
   0xf4292244, 0x432aff97, 0xab9423a7, 0xfc93a039,
   0x655b59c3, 0x8f0ccc92, 0xffeff47d, 0x85845dd1,
   0x6fa87e4f, 0xfe2ce6e0, 0xa3014314, 0x4e0811a1,
   0xf7537e82, 0xbd3af235, 0x2ad7d2bb, 0xeb86d391]

def md5S : List Nat :=
  [7, 12, 17, 22, 7, 12, 17, 22, 7, 12, 17, 22, 7, 12, 17, 22,
   5, 9, 14, 20, 5, 9, 14, 20, 5, 9, 14, 20, 5, 9, 14, 20,
   4, 11, 16, 23, 4, 11, 16, 23, 4, 11, 16, 23, 4, 11, 16, 23,
   6, 10, 15, 21, 6, 10, 15, 21, 6, 10, 15, 21, 6, 10, 15, 21]

def m32 : Nat := 4294967296

def not32 (x : Nat) : Nat := 4294967295 ^^^ x

def rotl32 (x s : Nat) : Nat :=
  ((x <<< s) % m32) ||| (x >>> (32 - s))

def md5Mix (i b c d : Nat) : Nat :=
  if i < 16 then (b &&& c) ||| (not32 b &&& d)
  else if i < 32 then (d &&& b) ||| (not32 d &&& c)
  else if i < 48 then b ^^^ c ^^^ d
  else c ^^^ (b ||| not32 d)

def md5MsgIdx (i : Nat) : Nat :=
  if i < 16 then i
  else if i < 32 then (5 * i + 1) % 16
  else if i < 48 then (3 * i + 5) % 16
  else (7 * i) % 16

def md5Word (block : List Nat) (j : Nat) : Nat :=
  block.getD (4 * j) 0 + 256 * block.getD (4 * j + 1) 0 +
    65536 * block.getD (4 * j + 2) 0 + 16777216 * block.getD (4 * j + 3) 0

def md5Step (block : List Nat) (st : Nat × Nat × Nat × Nat) (i : Nat) :
    Nat × Nat × Nat × Nat :=
  let (a, b, c, d) := st
  let f := (md5Mix i b c d + a + md5K.getD i 0 +
    md5Word block (md5MsgIdx i)) % m32
  (d, (b + rotl32 f (md5S.getD i 0)) % m32, b, c)

def md5Block (st : Nat × Nat × Nat × Nat) (block : List Nat) :
    Nat × Nat × Nat × Nat :=
  let (a0, b0, c0, d0) := st
  let (a, b, c, d) := (List.range 64).foldl (md5Step block) st
  ((a0 + a) % m32, (b0 + b) % m32, (c0 + c) % m32, (d0 + d) % m32)

def md5Pad (msg : List Nat) : List Nat :=
  let len := msg.length
  msg ++ [0x80] ++ List.replicate ((119 - len % 64) % 64) 0 ++
    (List.range 8).map (fun j => ((8 * len) >>> (8 * j)) % 256)

def md5Digest (msg : List Nat) : Nat × Nat × Nat × Nat :=
  let padded := md5Pad msg
  (List.range (padded.length / 64)).foldl
    (fun st k => md5Block st ((padded.drop (64 * k)).take 64))
    (0x67452301, 0xefcdab89, 0x98badcfe, 0x10325476)

def hexDigit (n : Nat) : Char :=
  "0123456789abcdef".data.getD n '0'

def hexByte (n : Nat) : List Char :=
  [hexDigit (n / 16), hexDigit (n % 16)]

def wordHexLE (w : Nat) : List Char :=
  hexByte (w % 256) ++ hexByte ((w >>> 8) % 256) ++
    hexByte ((w >>> 16) % 256) ++ hexByte ((w >>> 24) % 256)

def md5Hex (msg : List Nat) : String :=
  let (a, b, c, d) := md5Digest msg
  ⟨wordHexLE a ++ wordHexLE b ++ wordHexLE c ++ wordHexLE d⟩

/-! ## Data model

`Oferta` mirrors the dict built in `obtener_ofertas` (keys `titulo`,
`empresa`, `ubicacion`, `enlace`, `fecha_deteccion`, `hash`).
-/

structure Oferta where
  titulo : String
  empresa : String
  ubicacion : String
  enlace : String
  fecha_deteccion : String
  hash : String
deriving DecidableEq

/-- `self.url_base` from `MonitorEmpleoCloud.__init__`. -/
def url_base : String := "https://www.santafe.gob.ar/simtyss/portalempleo/"

/-- `self.url_busqueda = f"{self.url_base}ofertas/"`. -/
def url_busqueda : String := url_base ++ "ofertas/"

/-- `calcular_hash`: `texto = f"{titulo}{empresa}".lower().strip()`;
`hashlib.md5(texto.encode()).hexdigest()`. -/
def calcular_hash (titulo empresa : String) : String :=
  md5Hex (utf8Bytes (pyStripStr (pyLowerStr (titulo ++ empresa))))

/-- Modelled from the spec's words for C1: normalize each field
independently (case-fold and trim), then concatenate and hash. This is
the claimed behavior, to be compared with the source's `calcular_hash`. -/
def calcular_hash_espec (titulo empresa : String) : String :=
  md5Hex (utf8Bytes (pyStripStr (pyLowerStr titulo) ++ pyStripStr (pyLowerStr empresa)))

/-- Python `str.startswith`. -/
def pyStartsWith (s pre : String) : Bool :=
  pre.data.isPrefixOf s.data

/-- `construir_enlace`: the argument is the `href` of the anchor found by
`elemento.find('a', href=True)`, or `none` when no anchor was found. -/
def construir_enlace (elemento_enlace : Option String) : String :=
  match elemento_enlace with
  | none => url_base
  | some href =>
    if pyStartsWith href "http" then href
    else if pyStartsWith href "/" then "https://www.santafe.gob.ar" ++ href
    else url_base ++ href

/-! ## Extraction

`Elemento` records the outcome of the four BeautifulSoup lookups inside
the `for elemento in elementos_ofertas` loop (lines 71-106): the text of
the first title-chain match, of the employer-class match, of the
location-class match, and the `href` of the first anchor; each is `none`
when the corresponding `find` returned no tag.
-/

structure Elemento where
  titulo : Option String
  empresa : Option String
  ubicacion : Option String
  enlace : Option String
deriving DecidableEq

/-- The body of the extraction loop: a record is built only when a title
was found (`if titulo:`); employer and location fall back to their
placeholder defaults. -/
def procesar_elemento (ahora : String) (elemento : Elemento) : Option Oferta :=
  elemento.titulo.map (fun titulo_texto =>
    let empresa_texto := elemento.empresa.getD "Gobierno de Santa Fe"
    { titulo := titulo_texto
      empresa := empresa_texto
      ubicacion := elemento.ubicacion.getD "Santa Fe"
      enlace := construir_enlace elemento.enlace
      fecha_deteccion := ahora
      hash := calcular_hash titulo_texto empresa_texto })

/-- `obtener_ofertas`: a `requests` failure (or any other exception before
the loop) is caught and yields the empty list; otherwise each parsed
container is processed in order. -/
def obtener_ofertas (fetch : Except Unit (List Elemento)) (ahora : String) :
    List Oferta :=
  match fetch with
  | .error _ => []
  | .ok elementos => elementos.filterMap (procesar_elemento ahora)

/-! ## Diff -/

/-- `detectar_nuevas_ofertas` in the well-typed case (the prior state is a
list of records): `hashes_anteriores = {emp['hash'] for emp in ...}`;
`[o for o in ofertas_actuales if o['hash'] not in hashes_anteriores]`.
Python's `set` only affects lookup cost, not membership, so the hash set
is modelled by the list of hashes. -/
def detectar_nuevas_ofertas (empleos_anteriores ofertas_actuales : List Oferta) :
    List Oferta :=
  ofertas_actuales.filter
    (fun o => !((empleos_anteriores.map (fun emp => emp.hash)).contains o.hash))

/-! ## Telegram digest -/

/-- One iteration of the message loop in `enviar_telegram` (lines
156-160): the enumeration counter and the message so far, extended with
one entry. -/
def paso_mensaje (p : Nat × String) (oferta : Oferta) : Nat × String :=
  (p.1 + 1,
   p.2 ++ toString p.1 ++ ". *" ++ oferta.titulo ++ "*\n" ++
     "   📍 " ++ oferta.ubicacion ++ "\n" ++
     "   🏢 " ++ oferta.empresa ++ "\n" ++
     "   🔗 [Ver oferta](" ++ oferta.enlace ++ ")\n\n")

/-- The message built in `enviar_telegram` (lines 153-163): header, the
enumerated first ten entries (`enumerate(nuevas_ofertas[:10], 1)`), and
the `... y N ofertas más.` line when more than ten. -/
def mensaje_telegram (nuevas_ofertas : List Oferta) : String :=
  let mensaje := "🔔 *Nuevas Ofertas de Empleo - Santa Fe*\n"
  let mensaje := mensaje ++ "Se detectaron " ++ toString nuevas_ofertas.length ++
    " nueva(s) oferta(s)\n\n"
  let mensaje := ((nuevas_ofertas.take 10).foldl paso_mensaje (1, mensaje)).2
  if nuevas_ofertas.length > 10 then
    mensaje ++ "... y " ++ toString (nuevas_ofertas.length - 10) ++
      " ofertas más.\n"
  else mensaje

/-! ## The run controller with Python dynamic semantics

`cargar_estado` returns whatever `json.load` parsed (any JSON value), so
`detectar_nuevas_ofertas` can raise `KeyError`/`TypeError` at run time.
`JValue` is parsed JSON; `PyErr` the exceptions that can escape.
-/

inductive JValue where
  | null
  | bool (b : Bool)
  | num (n : Int)
  | str (s : String)
  | arr (elems : List JValue)
  | obj (campos : List (String × JValue))

inductive PyErr where
  | keyError
  | typeError
deriving DecidableEq

/-- `cargar_estado`: the argument is the state file's content — `none`
when the file is absent, `some (.error ())` when present but `json.load`
raises, `some (.ok v)` when it parses to `v`. Absent and unparseable both
degrade to `[]`; a parsed value is returned as-is, whatever its shape. -/
def cargar_estado (contenido : Option (Except Unit JValue)) : JValue :=
  match contenido with
  | some (.ok v) => v
  | some (.error _) => JValue.arr []
  | none => JValue.arr []

/-- Python iteration over a value, as in `for emp in self.empleos_anteriores`:
lists yield their elements, dicts their keys, strings their characters;
everything else raises `TypeError`. -/
def pyIter (v : JValue) : Except PyErr (List JValue) :=
  match v with
  | .arr elems => .ok elems
  | .obj campos => .ok (campos.map (fun kv => JValue.str kv.1))
  | .str s => .ok (s.data.map (fun c => JValue.str (String.singleton c)))
  | _ => .error .typeError

/-- `emp['hash']` on an arbitrary value: dict lookup (missing key raises
`KeyError`), anything else raises `TypeError`. -/
def pyGetHash (emp : JValue) : Except PyErr JValue :=
  match emp with
  | .obj campos =>
    match campos.lookup "hash" with
    | some h => .ok h
    | none => .error .keyError
  | _ => .error .typeError

/-- Python `==` between the string `o['hash']` and a set member of any
type: strings compare equal only to equal strings. -/
def pyEqStr (s : String) (v : JValue) : Bool :=
  match v with
  | .str t => s = t
  | _ => false

/-- Python hashability of a JSON-decoded value: set insertion accepts
strings, numbers, booleans and `None`, and raises
`TypeError: unhashable type` on `list` and `dict`. -/
def es_hashable (v : JValue) : Bool :=
  match v with
  | JValue.arr _ => false
  | JValue.obj _ => false
  | _ => true

/-- `emp['hash']` applied to each iterated element in turn, followed by
the insertion of the value into the set, stopping at the first exception
(the evaluation order of the set comprehension): a failed lookup raises
`KeyError`/`TypeError`, and inserting an unhashable value raises
`TypeError`. -/
def pyGetHashList : List JValue → Except PyErr (List JValue)
  | [] => .ok []
  | emp :: resto => do
    let h ← pyGetHash emp
    if es_hashable h then
      let hs ← pyGetHashList resto
      pure (h :: hs)
    else .error .typeError

/-- `{emp['hash'] for emp in empleos_anteriores}`. -/
def hashes_anteriores_py (empleos_anteriores : JValue) :
    Except PyErr (List JValue) := do
  let elems ← pyIter empleos_anteriores
  pyGetHashList elems

/-- `detectar_nuevas_ofertas` over a prior state of arbitrary parsed
shape. -/
def detectar_nuevas_ofertas_py (empleos_anteriores : JValue)
    (ofertas_actuales : List Oferta) : Except PyErr (List Oferta) := do
  let hashes ← hashes_anteriores_py empleos_anteriores
  pure (ofertas_actuales.filter (fun o => !(hashes.any (pyEqStr o.hash))))

/-- The externally observable outcome of one `ejecutar` run:
whether the early-return warning fired, whether `enviar_telegram` was
invoked (and, if so, the delivery outcome it returned — `ejecutar`
discards it), and what `guardar_estado` wrote (`none` = no write). -/
structure ResultadoEjecucion where
  advertencia : Bool
  notificacion : Option Bool
  estado_guardado : Option (List Oferta)
deriving DecidableEq

/-- `ejecutar` (lines 204-229): load state, fetch, abort with a warning on
an empty extraction (no notify, no save), otherwise diff, notify only when
there are new listings, and persist the full current list. `entrega` is
the delivery outcome `enviar_telegram` would return; it affects nothing
downstream. Exceptions escaping the diff propagate (there is no
surrounding handler). -/
def ejecutar (contenido : Option (Except Unit JValue))
    (fetch : Except Unit (List Elemento)) (ahora : String) (entrega : Bool) :
    Except PyErr ResultadoEjecucion :=
  let empleos_anteriores := cargar_estado contenido
  let ofertas_actuales := obtener_ofertas fetch ahora
  if ofertas_actuales.isEmpty then
    .ok { advertencia := true, notificacion := none, estado_guardado := none }
  else
    match detectar_nuevas_ofertas_py empleos_anteriores ofertas_actuales with
    | .error e => .error e
    | .ok nuevas =>
      .ok { advertencia := false
            notificacion := if nuevas.isEmpty then none else some entrega
            estado_guardado := some ofertas_actuales }

/-- An iterated element on which `emp['hash']` and the subsequent set
insertion both succeed: an object whose `hash` key holds a hashable
value. -/
def tiene_hash (v : JValue) : Bool :=
  match v with
  | JValue.obj campos =>
    match campos.lookup "hash" with
    | some h => es_hashable h
    | none => false
  | _ => false

/-- A state-file content is well-shaped when, if it parses at all, it is a
JSON array whose every element is an object whose `hash` key holds a
hashable value — in particular the string-hash shape `guardar_estado`
itself writes. -/
def estado_bien_formado (contenido : Option (Except Unit JValue)) : Bool :=
  match contenido with
  | some (.ok (JValue.arr elems)) => elems.all tiene_hash
  | some (.ok _) => false
  | _ => true

/-- Spec-side shape of the digest header: a line with the total count. -/
def encabezado_digesto (n : Nat) : String :=
  "🔔 *Nuevas Ofertas de Empleo - Santa Fe*\n" ++ "Se detectaron " ++
    toString n ++ " nueva(s) oferta(s)\n\n"

/-- Spec-side shape of one digest entry: index, title, location, employer
and link. -/
def entrada_digesto (i : Nat) (oferta : Oferta) : String :=
  toString i ++ ". *" ++ oferta.titulo ++ "*\n" ++
    "   📍 " ++ oferta.ubicacion ++ "\n" ++
    "   🏢 " ++ oferta.empresa ++ "\n" ++
    "   🔗 [Ver oferta](" ++ oferta.enlace ++ ")\n\n"

/-- Spec-side shape of the trailing line: the number of entries beyond the
cap of ten. -/
def linea_restantes (n : Nat) : String :=
  "... y " ++ toString n ++ " ofertas más.\n"

/-- The entries of the digest, enumerated from `i`. -/
def cuerpo_digesto : Nat -> List Oferta -> String
  | _, [] => ""
  | i, oferta :: resto => entrada_digesto i oferta ++ cuerpo_digesto (i + 1) resto

/-! Concrete records used by the witnesses. -/

def ofertaDup1 : Oferta :=
  { titulo := "Chofer", empresa := "Acme", ubicacion := "Santa Fe",
    enlace := url_base, fecha_deteccion := "2024-01-01",
    hash := calcular_hash "Chofer" "Acme" }

def ofertaDup2 : Oferta :=
  { ofertaDup1 with ubicacion := "Rosario" }

def ofertaPrevA : Oferta := ⟨"A", "E1", "U1", "L1", "F1", "ha"⟩

def ofertaPrevB : Oferta := ⟨"B", "E2", "U2", "L2", "F2", "hb"⟩

def ofertaPrevA' : Oferta := ⟨"A2", "E3", "U3", "L3", "F3", "ha"⟩

def ofertaPrevB' : Oferta := ⟨"B2", "E4", "U4", "L4", "F4", "hb"⟩

/-- Eleven distinct listing records. -/
def onceOfertas : List Oferta :=
  (List.range 11).map (fun k =>
    { titulo := "T" ++ toString k, empresa := "E" ++ toString k,
      ubicacion := "U" ++ toString k, enlace := "L" ++ toString k,
      fecha_deteccion := "F", hash := "h" ++ toString k })

/-! ## Normalization lemmas -/

theorem pyToLower_space {c : Char} (h : pyIsSpace c = true) : pyToLower c = c := by
  have h' : c.toNat ∈ pyWhitespaceCodes := by
    simpa [pyIsSpace] using List.elem_iff.mp h
  simp only [pyWhitespaceCodes, List.mem_cons, List.not_mem_nil, or_false] at h'
  unfold pyToLower
  split_ifs with h1 h2
  · omega
  · omega
  · rfl

theorem pyLowerStr_append (s t : String) :
    pyLowerStr (s ++ t) = pyLowerStr s ++ pyLowerStr t := by
  unfold pyLowerStr
  show (⟨(s ++ t).data.map pyToLower⟩ : String) =
    ⟨s.data.map pyToLower ++ t.data.map pyToLower⟩
  rw [String.data_append, List.map_append]

theorem pyLowerStr_space (w : String) (h : ∀ c ∈ w.data, pyIsSpace c) :
    ∀ c ∈ (pyLowerStr w).data, pyIsSpace c = true := by
  intro c hc
  unfold pyLowerStr at hc
  simp only [List.mem_map] at hc
  obtain ⟨c0, hc0, rfl⟩ := hc
  rw [pyToLower_space (h c0 hc0)]
  exact h c0 hc0

theorem dropWhile_space_nil (l : List Char) (h : ∀ c ∈ l, pyIsSpace c) :
    l.dropWhile pyIsSpace = [] :=
  List.dropWhile_eq_nil_iff.mpr h

theorem stripList_sandwich (a m b : List Char) (ha : ∀ c ∈ a, pyIsSpace c)
    (hb : ∀ c ∈ b, pyIsSpace c) : stripList (a ++ m ++ b) = stripList m := by
  unfold stripList
  rw [List.append_assoc, List.dropWhile_append, dropWhile_space_nil a ha]
  simp only [List.isEmpty_nil, if_true]
  rw [List.dropWhile_append]
  by_cases hm : (m.dropWhile pyIsSpace).isEmpty
  · have hm' : m.dropWhile pyIsSpace = [] := by simpa using hm
    simp [hm', dropWhile_space_nil b hb]
  · simp only [hm, Bool.false_eq_true, if_false]
    rw [List.reverse_append, List.dropWhile_append,
      dropWhile_space_nil b.reverse (by simpa using hb)]
    simp

theorem pyStrip_sandwich (w1 mid w2 : String) (h1 : ∀ c ∈ w1.data, pyIsSpace c)
    (h2 : ∀ c ∈ w2.data, pyIsSpace c) :
    pyStripStr (w1 ++ mid ++ w2) = pyStripStr mid := by
  unfold pyStripStr
  show (⟨stripList (w1 ++ mid ++ w2).data⟩ : String) = ⟨stripList mid.data⟩
  rw [String.data_append, String.data_append]
  exact congrArg String.mk (stripList_sandwich _ _ _ h1 h2)

/-! ## C1: per-field vs whole-concatenation normalization -/

/-- C1 (counterexample): `calcular_hash` does not normalize each field
independently before concatenation — at title `"Chef "` and employer
`"Acme"` it differs from the hash of `trim(lower(t)) ++ trim(lower(e))`,
and the trailing-whitespace variant `("Chef ", "Acme")` vs
`("Chef", "Acme")` does not collapse to one fingerprint. -/
theorem calcular_hash_contra :
    calcular_hash "Chef " "Acme" ≠ calcular_hash_espec "Chef " "Acme" ∧
    calcular_hash "Chef " "Acme" ≠ calcular_hash "Chef" "Acme" := by
  constructor <;> decide

/-- C1 (amended): the fingerprint normalizes the concatenation, not each
field: `calcular_hash t e = md5(trim(lower(t ++ e)))`. Hence case
variants and whitespace leading the title or trailing the employer
collapse to one fingerprint (whitespace at the title–employer boundary is
preserved), and the cited example
`fingerprint("Chef ", "Acme") = fingerprint("chef", " acme")` does hold. -/
theorem calcular_hash_normaliza_concatenacion
    (t t' e e' w1 w2 : String)
    (ht : pyLowerStr t' = pyLowerStr t) (he : pyLowerStr e' = pyLowerStr e)
    (hw1 : ∀ c ∈ w1.data, pyIsSpace c) (hw2 : ∀ c ∈ w2.data, pyIsSpace c) :
    calcular_hash (w1 ++ t') (e' ++ w2) = calcular_hash t e ∧
    calcular_hash "Chef " "Acme" = calcular_hash "chef" " acme" := by
  refine ⟨?_, by decide⟩
  unfold calcular_hash
  suffices hs : pyStripStr (pyLowerStr (w1 ++ t' ++ (e' ++ w2))) =
      pyStripStr (pyLowerStr (t ++ e)) by rw [hs]
  rw [pyLowerStr_append (w1 ++ t') (e' ++ w2), pyLowerStr_append w1 t',
    pyLowerStr_append e' w2, ht, he, pyLowerStr_append t e,
    ← String.append_assoc (pyLowerStr w1 ++ pyLowerStr t),
    String.append_assoc (pyLowerStr w1)]
  exact pyStrip_sandwich _ _ _ (pyLowerStr_space w1 hw1) (pyLowerStr_space w2 hw2)

/-- C1 witness. -/
theorem calcular_hash_normaliza_concatenacion_witness :
    calcular_hash (" " ++ "CHEF") ("Acme" ++ "\t") = calcular_hash "chef" "acme" ∧
    calcular_hash "Chef " "Acme" = calcular_hash "chef" " acme" :=
  calcular_hash_normaliza_concatenacion "chef" "CHEF" "acme" "Acme" " " "\t"
    (by decide) (by decide) (by decide) (by decide)

/-! ## C2: link resolution -/

/-- C2 (counterexample): a bare relative href `"5"` is concatenated onto
the base portal URL, not onto the search-results path `url_busqueda`; and
an href beginning with a non-`http` scheme such as `"ftp://a"` is not
returned unchanged. -/
theorem construir_enlace_contra :
    construir_enlace (some "5") ≠ url_busqueda ++ "5" ∧
    construir_enlace (some "ftp://a") ≠ "ftp://a" := by
  constructor <;> decide

/-- C2 (amended): if the href starts with `"http"` it is returned
unchanged; if it starts with `"/"` it is prefixed with the site origin
`https://www.santafe.gob.ar`; otherwise it is concatenated onto the base
portal URL `url_base` (so href `"5"` yields `url_base ++ "5"`); with no
anchor the result is the base portal URL. -/
theorem construir_enlace_resolucion :
    (∀ href : String, pyStartsWith href "http" = true →
      construir_enlace (some href) = href) ∧
    (∀ href : String, pyStartsWith href "http" = false →
      pyStartsWith href "/" = true →
      construir_enlace (some href) = "https://www.santafe.gob.ar" ++ href) ∧
    (∀ href : String, pyStartsWith href "http" = false →
      pyStartsWith href "/" = false →
      construir_enlace (some href) = url_base ++ href) ∧
    construir_enlace none = url_base := by
  refine ⟨fun href h1 => ?_, fun href h1 h2 => ?_, fun href h1 h2 => ?_, rfl⟩ <;>
    simp [construir_enlace, h1]
  · simp [h2]
  · simp [h2]

/-- C2 witness. -/
theorem construir_enlace_resolucion_witness :
    construir_enlace (some "https://x.com/a") = "https://x.com/a" ∧
    construir_enlace (some "/ofertas/5") =
      "https://www.santafe.gob.ar" ++ "/ofertas/5" ∧
    construir_enlace (some "5") = url_base ++ "5" ∧
    construir_enlace none = url_base :=
  ⟨construir_enlace_resolucion.1 "https://x.com/a" (by decide),
   construir_enlace_resolucion.2.1 "/ofertas/5" (by decide) (by decide),
   construir_enlace_resolucion.2.2.1 "5" (by decide) (by decide),
   construir_enlace_resolucion.2.2.2⟩

/-! ## C8: fingerprint boundary collisions -/

/-- C8: whenever the lowercased-and-stripped concatenations of two
(title, employer) pairs coincide, the fingerprints coincide — distinct
pairs whose concatenations agree, such as `("ab", "c")` and
`("a", "bc")`, receive the same fingerprint. -/
theorem calcular_hash_colision_frontera (t1 e1 t2 e2 : String)
    (h : pyStripStr (pyLowerStr (t1 ++ e1)) = pyStripStr (pyLowerStr (t2 ++ e2))) :
    calcular_hash t1 e1 = calcular_hash t2 e2 := by
  unfold calcular_hash
  rw [h]

/-- C8 witness: the pairs `("ab", "c")` and `("a", "bc")`. -/
theorem calcular_hash_colision_frontera_witness :
    pyStripStr (pyLowerStr ("ab" ++ "c")) = pyStripStr (pyLowerStr ("a" ++ "bc")) ∧
    calcular_hash "ab" "c" = calcular_hash "a" "bc" :=
  ⟨by decide, calcular_hash_colision_frontera "ab" "c" "a" "bc" (by decide)⟩

/-! ## C3, C5, C9, C10: the diff -/

/-- C3: `detectar_nuevas_ofertas` returns exactly those records of the
current list whose fingerprint is absent from the prior state's
fingerprints, as a subsequence of the current list (hence in its original
relative order). -/
theorem detectar_nuevas_ofertas_filtra
    (empleos_anteriores ofertas_actuales : List Oferta) :
    (detectar_nuevas_ofertas empleos_anteriores ofertas_actuales).Sublist
      ofertas_actuales ∧
    ∀ o, o ∈ detectar_nuevas_ofertas empleos_anteriores ofertas_actuales ↔
      o ∈ ofertas_actuales ∧ o.hash ∉ empleos_anteriores.map Oferta.hash := by
  refine ⟨List.filter_sublist _, fun o => ?_⟩
  simp [detectar_nuevas_ofertas, List.mem_filter]

/-- C5 (bootstrap identity): diffing against an empty prior state returns
the whole current list unchanged and in order. -/
theorem detectar_nuevas_ofertas_bootstrap (ofertas_actuales : List Oferta) :
    detectar_nuevas_ofertas [] ofertas_actuales = ofertas_actuales := by
  simp [detectar_nuevas_ofertas]

/-- C9 (no within-run deduplication): two records of the current list with
equal fingerprints absent from the prior state are both kept by the diff,
in place. -/
theorem detectar_nuevas_ofertas_duplicados
    (empleos_anteriores l1 l2 l3 : List Oferta) (o1 o2 : Oferta)
    (hEq : o2.hash = o1.hash)
    (hAbs : o1.hash ∉ empleos_anteriores.map Oferta.hash) :
    detectar_nuevas_ofertas empleos_anteriores (l1 ++ (o1 :: l2) ++ (o2 :: l3)) =
      detectar_nuevas_ofertas empleos_anteriores l1 ++
        (o1 :: detectar_nuevas_ofertas empleos_anteriores l2) ++
        (o2 :: detectar_nuevas_ofertas empleos_anteriores l3) ∧
    o1 ∈ detectar_nuevas_ofertas empleos_anteriores (l1 ++ (o1 :: l2) ++ (o2 :: l3)) ∧
    o2 ∈ detectar_nuevas_ofertas empleos_anteriores (l1 ++ (o1 :: l2) ++ (o2 :: l3)) := by
  have hpred : ∀ o' : Oferta, o'.hash = o1.hash →
      (!((empleos_anteriores.map (fun emp => emp.hash)).contains o'.hash)) = true := by
    intro o' h'
    rw [h']
    simpa [List.contains, List.elem_eq_mem] using hAbs
  have heq : detectar_nuevas_ofertas empleos_anteriores
      (l1 ++ (o1 :: l2) ++ (o2 :: l3)) =
      detectar_nuevas_ofertas empleos_anteriores l1 ++
        (o1 :: detectar_nuevas_ofertas empleos_anteriores l2) ++
        (o2 :: detectar_nuevas_ofertas empleos_anteriores l3) := by
    unfold detectar_nuevas_ofertas
    simp only [List.filter_append, List.filter_cons, hpred o1 rfl, hpred o2 hEq,
      if_true]
  refine ⟨heq, ?_, ?_⟩ <;> rw [heq] <;> simp

/-- C9 witness: the same listing scraped twice (differing only in
location) with a prior state not containing its fingerprint. -/
theorem detectar_nuevas_ofertas_duplicados_witness :
    detectar_nuevas_ofertas [] ([] ++ (ofertaDup1 :: []) ++ (ofertaDup2 :: [])) =
      detectar_nuevas_ofertas [] [] ++
        (ofertaDup1 :: detectar_nuevas_ofertas [] []) ++
        (ofertaDup2 :: detectar_nuevas_ofertas [] []) ∧
    ofertaDup1 ∈ detectar_nuevas_ofertas [] ([] ++ (ofertaDup1 :: []) ++ (ofertaDup2 :: [])) ∧
    ofertaDup2 ∈ detectar_nuevas_ofertas [] ([] ++ (ofertaDup1 :: []) ++ (ofertaDup2 :: [])) :=
  detectar_nuevas_ofertas_duplicados [] [] [] [] ofertaDup1 ofertaDup2
    (by rfl) (by simp)

/-- C10 (noninterference): the diff depends on the prior state only
through its set of fingerprint values — two prior states with equal
fingerprint sets (whatever their other fields, order or multiplicities)
yield identical diffs. -/
theorem detectar_nuevas_ofertas_solo_hashes
    (ofertas_actuales p1 p2 : List Oferta)
    (h : ∀ s : String, s ∈ p1.map Oferta.hash ↔ s ∈ p2.map Oferta.hash) :
    detectar_nuevas_ofertas p1 ofertas_actuales =
      detectar_nuevas_ofertas p2 ofertas_actuales := by
  unfold detectar_nuevas_ofertas
  refine List.filter_congr (fun o _ => ?_)
  simp [List.contains, List.elem_eq_mem, h o.hash]

/-- C10 witness: two prior states with the same fingerprints in different
order, multiplicity and metadata. -/
theorem detectar_nuevas_ofertas_solo_hashes_witness :
    (∀ s : String, s ∈ [ofertaPrevA, ofertaPrevB].map Oferta.hash ↔
      s ∈ [ofertaPrevB', ofertaPrevA', ofertaPrevB'].map Oferta.hash) ∧
    detectar_nuevas_ofertas [ofertaPrevA, ofertaPrevB] [ofertaDup1] =
      detectar_nuevas_ofertas [ofertaPrevB', ofertaPrevA', ofertaPrevB'] [ofertaDup1] :=
  ⟨fun s => by simp [ofertaPrevA, ofertaPrevB, ofertaPrevA', ofertaPrevB']; tauto,
   detectar_nuevas_ofertas_solo_hashes [ofertaDup1] _ _
     (fun s => by simp [ofertaPrevA, ofertaPrevB, ofertaPrevA', ofertaPrevB']; tauto)⟩

/-! ## C4, C6: the run controller -/

theorem except_bind_ok {α β : Type} (a : α) (f : α → Except PyErr β) :
    (Except.ok a >>= f) = f a := rfl

theorem pyGetHashList_ok (elems : List JValue)
    (h : ∀ v ∈ elems, tiene_hash v = true) :
    ∃ hs, pyGetHashList elems = Except.ok hs := by
  induction elems with
  | nil => exact ⟨[], rfl⟩
  | cons e resto ih =>
    obtain ⟨hs, hresto⟩ := ih (fun v hv => h v (List.mem_cons_of_mem _ hv))
    have he := h e (by simp)
    cases e with
    | obj campos =>
      cases hl : campos.lookup "hash" with
      | none => simp [tiene_hash, hl] at he
      | some hv =>
        have hh : es_hashable hv = true := by simpa [tiene_hash, hl] using he
        refine ⟨hv :: hs, ?_⟩
        simp only [pyGetHashList, pyGetHash, hl, except_bind_ok, hh, if_true,
          hresto]
        rfl
    | null => simp [tiene_hash] at he
    | bool b => simp [tiene_hash] at he
    | num n => simp [tiene_hash] at he
    | str st => simp [tiene_hash] at he
    | arr l => simp [tiene_hash] at he

/-- C4 (counterexample): with a fetch that yields one titled container,
the state file holding the valid JSON `[{}]` — an array whose element
lacks a `hash` key — makes the run raise an uncaught `KeyError`, and the
valid JSON `[{"hash": []}]` — a `hash` value that set insertion rejects as
unhashable — makes it raise an uncaught `TypeError`. -/
theorem ejecutar_excepcion_contra :
    ejecutar (some (Except.ok (JValue.arr [JValue.obj []])))
      (Except.ok [{ titulo := some "Chofer", empresa := none,
                    ubicacion := none, enlace := none }])
      "2024-01-01" false = Except.error PyErr.keyError ∧
    ejecutar (some (Except.ok (JValue.arr [JValue.obj [("hash", JValue.arr [])]])))
      (Except.ok [{ titulo := some "Chofer", empresa := none,
                    ubicacion := none, enlace := none }])
      "2024-01-01" false = Except.error PyErr.typeError := by
  constructor <;> rfl

/-- C4 (amended): for every state-file content that is absent,
unparseable, or parses to an array of objects each carrying a `hash` key
with a hashable value (in particular the string-hash shape the program
itself persists), every fetch outcome and every notification-delivery
outcome, the run completes without propagating an exception. -/
theorem ejecutar_sin_excepcion
    (contenido : Option (Except Unit JValue)) (fetch : Except Unit (List Elemento))
    (ahora : String) (entrega : Bool)
    (h : estado_bien_formado contenido = true) :
    ∃ r, ejecutar contenido fetch ahora entrega = Except.ok r := by
  have hdet : ∃ hs, hashes_anteriores_py (cargar_estado contenido) = Except.ok hs := by
    match contenido with
    | none => exact ⟨[], rfl⟩
    | some (.error _) => exact ⟨[], rfl⟩
    | some (.ok v) =>
      match v with
      | .arr elems =>
        simp only [estado_bien_formado] at h
        obtain ⟨hs, hhs⟩ := pyGetHashList_ok elems (List.all_eq_true.mp h)
        exact ⟨hs, by
          simp only [hashes_anteriores_py, cargar_estado, pyIter, except_bind_ok, hhs]⟩
      | .null => simp [estado_bien_formado] at h
      | .bool b => simp [estado_bien_formado] at h
      | .num n => simp [estado_bien_formado] at h
      | .str st => simp [estado_bien_formado] at h
      | .obj campos => simp [estado_bien_formado] at h
  obtain ⟨hs, hhs⟩ := hdet
  unfold ejecutar
  by_cases hv : (obtener_ofertas fetch ahora).isEmpty
  · exact ⟨{ advertencia := true, notificacion := none, estado_guardado := none },
      by simp [hv]⟩
  · have hdet2 : detectar_nuevas_ofertas_py (cargar_estado contenido)
        (obtener_ofertas fetch ahora) =
        Except.ok ((obtener_ofertas fetch ahora).filter
          (fun o => !(hs.any (pyEqStr o.hash)))) := by
      simp only [detectar_nuevas_ofertas_py, hhs, except_bind_ok]
      rfl
    refine ⟨{ advertencia := false,
              notificacion := if ((obtener_ofertas fetch ahora).filter
                (fun o => !(hs.any (pyEqStr o.hash)))).isEmpty then none
                else some entrega,
              estado_guardado := some (obtener_ofertas fetch ahora) }, ?_⟩
    simp only [hv, Bool.false_eq_true, if_false, hdet2]

/-- C4 witness: a well-shaped persisted state, a successful fetch and a
successful delivery. -/
theorem ejecutar_sin_excepcion_witness :
    estado_bien_formado
      (some (Except.ok (JValue.arr [JValue.obj [("hash", JValue.str "h1")]]))) = true ∧
    ∃ r, ejecutar
      (some (Except.ok (JValue.arr [JValue.obj [("hash", JValue.str "h1")]])))
      (Except.ok [{ titulo := some "T", empresa := none,
                    ubicacion := none, enlace := none }])
      "2024-01-01" true = Except.ok r :=
  ⟨by rfl,
   ejecutar_sin_excepcion
     (some (Except.ok (JValue.arr [JValue.obj [("hash", JValue.str "h1")]])))
     (Except.ok [{ titulo := some "T", empresa := none,
                   ubicacion := none, enlace := none }])
     "2024-01-01" true (by rfl)⟩

/-- C6 (empty-fetch atomicity): whenever extraction yields zero records,
the run warns, performs no notification and writes no state. -/
theorem ejecutar_fetch_vacio
    (contenido : Option (Except Unit JValue)) (fetch : Except Unit (List Elemento))
    (ahora : String) (entrega : Bool)
    (h : obtener_ofertas fetch ahora = []) :
    ejecutar contenido fetch ahora entrega =
      Except.ok { advertencia := true, notificacion := none,
                  estado_guardado := none } := by
  unfold ejecutar
  rw [h]
  rfl

/-- C6 witness: a failed fetch is treated as zero records and aborts the
run without notifying or saving. -/
theorem ejecutar_fetch_vacio_witness :
    ejecutar none (Except.error ()) "2024-01-01" false =
      Except.ok { advertencia := true, notificacion := none,
                  estado_guardado := none } :=
  ejecutar_fetch_vacio none (Except.error ()) "2024-01-01" false rfl

/-! ## C7: the Telegram digest -/

theorem foldl_paso_mensaje (l : List Oferta) (i : Nat) (m : String) :
    (l.foldl paso_mensaje (i, m)).2 = m ++ cuerpo_digesto i l := by
  induction l generalizing i m with
  | nil => simp [cuerpo_digesto]
  | cons oferta resto ih =>
    rw [List.foldl_cons, paso_mensaje, ih]
    simp [cuerpo_digesto, entrada_digesto, String.append_assoc]

/-- C7: for every non-empty list of new listings the digest message is the
header line carrying the total count, followed by the entries for the
first ten listings (each carrying title, location, employer and link),
followed — exactly when there are more than ten — by a trailing line with
the remaining count. -/
theorem mensaje_telegram_digesto (nuevas_ofertas : List Oferta)
    (h : nuevas_ofertas ≠ []) :
    mensaje_telegram nuevas_ofertas =
      encabezado_digesto nuevas_ofertas.length ++
        cuerpo_digesto 1 (nuevas_ofertas.take 10) ++
        (if nuevas_ofertas.length > 10 then
          linea_restantes (nuevas_ofertas.length - 10) else "") := by
  simp only [mensaje_telegram, foldl_paso_mensaje]
  split_ifs with h10
  · simp [encabezado_digesto, linea_restantes, String.append_assoc]
  · simp [encabezado_digesto, String.append_assoc]

/-- C7 witness: a digest of eleven listings (truncated to ten entries plus
the trailing line). -/
theorem mensaje_telegram_digesto_witness :
    onceOfertas ≠ [] ∧
    mensaje_telegram onceOfertas =
      encabezado_digesto onceOfertas.length ++
        cuerpo_digesto 1 (onceOfertas.take 10) ++
        (if onceOfertas.length > 10 then
          linea_restantes (onceOfertas.length - 10) else "") :=
  ⟨by simp [onceOfertas], mensaje_telegram_digesto onceOfertas (by simp [onceOfertas])⟩

end Monitor
